import Mathlib

/-!
Verification of the SF gym-accessibility dashboard (`streamlit_app.py`).

Shallow embedding of the program's data model and of its three pure cores:
the filter (`filter_conditions` / the `filtered_df` selection), the choropleth
renderer `create_choropleth_map`, and the analytics `top_10` view.

Numeric columns that are Python floats are modelled as `ℚ`; Python `int`
columns as `Int`/`Nat`.  A Python expression that raises (KeyError on a
missing column, a parse/indexing error on a bad geometry) is modelled as
`Option` with `none` for the raise; exceptions propagate out of the render
loop exactly as `Option.bind` propagates `none`.
-/

/-- A parsed GeoJSON geometry as consumed by `create_choropleth_map`.
`json.loads(row['geometry'])` followed by the `geom['type'] == 'Polygon'`
test distinguishes polygons from multi-polygons; coordinate pairs are
longitude-first as stored.  `malformed` stands for a geometry string whose
JSON parse, `['type']`/`['coordinates']` lookup, or ring indexing raises. -/
inductive Geometry where
  | polygon (coordinates : List (List (ℚ × ℚ)))
  | multiPolygon (coordinates : List (List (List (ℚ × ℚ))))
  | malformed
deriving DecidableEq, Repr

/-- One row of the `mart_gym_accessibility` query in `load_gym_data`. -/
structure BlockGroupRecord where
  census_block_group : String
  state : String
  county : String
  geometry : Geometry
  total_population : Int
  pop_age_18_54 : Int
  pct_prime_gym_age : ℚ
  median_household_income : ℚ
  employed_population : Int
  demand_score : ℚ
  is_high_demand_area : Bool
  gyms_within_1_mile : Nat
  gyms_within_half_mile : Nat
  distance_to_nearest_gym_meters : ℚ
  distance_to_nearest_gym_miles : ℚ
  accessibility_rating : String
  is_underserved : Bool
  opportunity_score : ℚ
  opportunity_tier : String
deriving DecidableEq, Repr

/-- One row of the `INT_SF_GYMS` query in `load_gym_locations`. -/
structure GymLocation where
  place_id : String
  display_name : String
  gym_type : String
  longitude : ℚ
  latitude : ℚ
deriving DecidableEq, Repr

/-- The sidebar filter inputs: `exclude_water_blocks`, `opportunity_tiers`,
`min_population`, `max_distance`. -/
structure FilterState where
  exclude_water_blocks : Bool
  opportunity_tiers : List String
  min_population : Int
  max_distance : ℚ
deriving DecidableEq, Repr

/-- The hardcoded list `WATER_OVERLAPPING_BLOCKS = ['060750179021', '060750601001']`. -/
def WATER_OVERLAPPING_BLOCKS : List String := ["060750179021", "060750601001"]

/-- The per-row boolean of the `filter_conditions` mask: tier membership,
population floor, distance ceiling, and — only when `exclude_water_blocks`
is set — absence from `WATER_OVERLAPPING_BLOCKS`. -/
def filter_conditions (fs : FilterState) (r : BlockGroupRecord) : Bool :=
  (fs.opportunity_tiers.contains r.opportunity_tier &&
    decide (fs.min_population ≤ r.total_population) &&
    decide (r.distance_to_nearest_gym_miles ≤ fs.max_distance)) &&
  (if fs.exclude_water_blocks then
    !(WATER_OVERLAPPING_BLOCKS.contains r.census_block_group)
  else true)

/-- The selection `filtered_df = df[filter_conditions]`: a stable boolean-mask filter. -/
def apply_filters (fs : FilterState) (df : List BlockGroupRecord) :
    List BlockGroupRecord :=
  df.filter (filter_conditions fs)

/-- The filter predicate as the spec words it: tier in the selected set,
population at least the minimum, nearest-gym miles at most the maximum, and,
when exclusion is enabled, identifier not in the water-overlap list.  Used
only to compare the code's mask against the spec. -/
def specKeep (fs : FilterState) (r : BlockGroupRecord) : Prop :=
  r.opportunity_tier ∈ fs.opportunity_tiers ∧
  fs.min_population ≤ r.total_population ∧
  r.distance_to_nearest_gym_miles ≤ fs.max_distance ∧
  (fs.exclude_water_blocks = true → r.census_block_group ∉ WATER_OVERLAPPING_BLOCKS)

instance (fs : FilterState) (r : BlockGroupRecord) : Decidable (specKeep fs r) := by
  unfold specKeep; infer_instance

/-- Model of `Series.min()` over a nonempty column (the code never takes it on an
empty one; `0` is an arbitrary value for the empty case). -/
def listMin : List ℚ → ℚ
  | [] => 0
  | x :: xs => xs.foldl min x

/-- Model of `Series.max()` over a nonempty column. -/
def listMax : List ℚ → ℚ
  | [] => 0
  | x :: xs => xs.foldl max x

/-- Linear interpolation into the ascending sort `s` at fractional position
`h`: `s[floor h] + (h - floor h) * (s[ceil h] - s[floor h])`. -/
def interpolate (s : List ℚ) (h : ℚ) : ℚ :=
  s.getD (Int.floor h).toNat 0 +
    (h - ((Int.floor h).toNat : ℚ)) *
      (s.getD (Int.ceil h).toNat 0 - s.getD (Int.floor h).toNat 0)

/-- Model of `Series.quantile(p)` with the default linear interpolation: the value at
fractional position `h = p * (n - 1)` in the ascending sort of the column. -/
def quantile (xs : List ℚ) (p : ℚ) : ℚ :=
  interpolate (xs.insertionSort (· ≤ ·)) (p * ((xs.length : ℚ) - 1))

/-- Column access `row[name]` / `df[name]` for the numeric columns the
renderer can be pointed at; `none` models the KeyError a missing column
raises. -/
def getMetric (r : BlockGroupRecord) : String → Option ℚ
  | "opportunity_score" => some r.opportunity_score
  | "gyms_within_half_mile" => some (r.gyms_within_half_mile : ℚ)
  | "distance_to_nearest_gym_miles" => some r.distance_to_nearest_gym_miles
  | "total_population" => some (r.total_population : ℚ)
  | "demand_score" => some r.demand_score
  | _ => none

/-- Runs a fallible step over every row in order; the first raise aborts the
whole pass, as an uncaught Python exception does in a `for` loop. -/
def sequenceRows (f : α → Option β) : List α → Option (List β)
  | [] => some []
  | a :: l =>
    match f a, sequenceRows f l with
    | some b, some bs => some (b :: bs)
    | _, _ => none

/-- A `LinearColormap` together with its legend caption: the colour ramp,
the domain bounds `vmin`/`vmax`, and the caption attached at the end. -/
structure ColorScale where
  ramp : List String
  vmin : ℚ
  vmax : ℚ
  caption : String
deriving DecidableEq, Repr

/-- The colour-scale selection of `create_choropleth_map`: `vmin_score` /
`vmax_score` come from `df[metric]` (5th/95th quantile for the opportunity
score, min/max otherwise — a missing column raises here), and
`color_scales.get(metric, color_scales['opportunity_score'])` picks the
entry, defaulting to the opportunity-score one.  The two fixed-domain
entries use `df[metric].max()` for their `vmax`, written against the
*passed* metric column. -/
def selectColorScale (df : List BlockGroupRecord) (metric : String) :
    Option ColorScale := do
  let vals ← sequenceRows (fun r => getMetric r metric) df
  let vmin_score := if metric = "opportunity_score" then quantile vals (1/20)
    else listMin vals
  let vmax_score := if metric = "opportunity_score" then quantile vals (19/20)
    else listMax vals
  pure (if metric = "gyms_within_half_mile" then
      ⟨["red", "orange", "yellow", "green"], 0, listMax vals,
        "Gyms within 0.5 miles (Green = More Gyms)"⟩
    else if metric = "distance_to_nearest_gym_miles" then
      ⟨["green", "yellow", "orange", "red"], 0, listMax vals,
        "Distance to Nearest Gym (Red = Farther)"⟩
    else
      ⟨["red", "orange", "yellow", "lightgreen", "green"], vmin_score, vmax_score,
        "Opportunity Score (Green = High Opportunity)"⟩)

/-- The ring the loop body draws: `geom['coordinates'][0]` for a polygon,
`geom['coordinates'][0][0]` for a multi-polygon; `none` models the raise on
a malformed geometry or an out-of-range index. -/
def outerRing : Geometry → Option (List (ℚ × ℚ))
  | Geometry.polygon coordinates => coordinates.head?
  | Geometry.multiPolygon coordinates => coordinates.head?.bind List.head?
  | Geometry.malformed => none

/-- One `folium.Polygon` drawn for a block group: its `locations` (the outer
ring, swapped to latitude-first), the metric value fed to the colormap, and
the identifier and tier shown in the tooltip. -/
structure Shape where
  locations : List (ℚ × ℚ)
  fillValue : ℚ
  cbg : String
  tier : String
deriving DecidableEq, Repr

/-- The loop body of `create_choropleth_map` for one row: parse the
geometry, take the outer ring, swap every pair to latitude-first, and look
the metric value up for the fill colour. -/
def renderRecord (metric : String) (r : BlockGroupRecord) : Option Shape := do
  let ring ← outerRing r.geometry
  let v ← getMetric r metric
  pure ⟨ring.map (fun p => (p.2, p.1)), v, r.census_block_group, r.opportunity_tier⟩

/-- One `folium.CircleMarker` for a gym: location latitude-first, name and
gym type for popup and tooltip. -/
structure Marker where
  location : ℚ × ℚ
  name : String
  gymType : String
deriving DecidableEq, Repr

/-- The marker built for one gym row. -/
def mkGymMarker (g : GymLocation) : Marker :=
  ⟨(g.latitude, g.longitude), g.display_name, g.gym_type⟩

/-- The map object `create_choropleth_map` returns: the polygon layer, the
gym-marker layer (empty when `show_gyms` is off), and the active colour
scale with its caption. -/
structure MapArtifact where
  shapes : List Shape
  markers : List Marker
  scale : ColorScale
deriving DecidableEq, Repr

/-- The renderer `create_choropleth_map(df, metric, show_gyms)`.  `gymData` stands for
the cached result of `load_gym_locations()`, which the function fetches
itself — it is not part of the filtered input.  `none` models an uncaught
exception escaping the function. -/
def create_choropleth_map (gymData : List GymLocation)
    (df : List BlockGroupRecord) (metric : String) (show_gyms : Bool) :
    Option MapArtifact := do
  let scale ← selectColorScale df metric
  let shapes ← sequenceRows (renderRecord metric) df
  let markers := if show_gyms then gymData.map mkGymMarker else []
  pure ⟨shapes, markers, scale⟩

/-- The descending-score ordering `nlargest` sorts by. -/
def scoreGE (a b : BlockGroupRecord) : Prop :=
  b.opportunity_score ≤ a.opportunity_score

instance : DecidableRel scoreGE := fun a b => by unfold scoreGE; infer_instance

instance : IsTotal BlockGroupRecord scoreGE :=
  ⟨fun a b => le_total b.opportunity_score a.opportunity_score⟩

instance : IsTrans BlockGroupRecord scoreGE :=
  ⟨fun _ _ _ hab hbc => le_trans hbc hab⟩

/-- The view `filtered_df.nlargest(10, 'opportunity_score')` with the default
`keep='first'`: the rows in descending score order, earlier rows first
among ties, truncated to 10 (insertion sort is stable). -/
def top_10 (df : List BlockGroupRecord) : List BlockGroupRecord :=
  (df.insertionSort scoreGE).take 10

/-- A template row with plausible values; concrete scenarios override
individual fields. -/
def baseRecord : BlockGroupRecord where
  census_block_group := "060750000001"
  state := "06"
  county := "075"
  geometry := Geometry.polygon [[(0, 0), (0, 1), (1, 1), (0, 0)]]
  total_population := 1000
  pop_age_18_54 := 600
  pct_prime_gym_age := 60
  median_household_income := 90000
  employed_population := 500
  demand_score := 50
  is_high_demand_area := false
  gyms_within_1_mile := 2
  gyms_within_half_mile := 1
  distance_to_nearest_gym_meters := 800
  distance_to_nearest_gym_miles := 1/2
  accessibility_rating := "Moderate"
  is_underserved := false
  opportunity_score := 50
  opportunity_tier := "Medium"

/-- A second valid row, with a different tier, score and geometry. -/
def recordB : BlockGroupRecord :=
  { baseRecord with
    census_block_group := "060750000002"
    geometry := Geometry.polygon [[(1, 1), (1, 2), (2, 2), (1, 1)]]
    total_population := 2500
    distance_to_nearest_gym_miles := 3/4
    opportunity_score := 80
    opportunity_tier := "High" }

/-- The three rows of the spec's filter scenario: populations
`[500, 1500, 0]`, nearest-gym distances `[0.3, 0.8, 2.0]` miles. -/
def scenarioA : BlockGroupRecord :=
  { baseRecord with
    census_block_group := "060750000011"
    total_population := 500
    distance_to_nearest_gym_miles := 3/10 }

def scenarioB : BlockGroupRecord :=
  { baseRecord with
    census_block_group := "060750000012"
    total_population := 1500
    distance_to_nearest_gym_miles := 4/5 }

def scenarioC : BlockGroupRecord :=
  { baseRecord with
    census_block_group := "060750000013"
    total_population := 0
    distance_to_nearest_gym_miles := 2 }

/-- The scenario's filter state: all tiers of the scenario rows selected,
minimum population 100, maximum distance 1.0 miles; exclusion enabled but
removing none of the scenario identifiers. -/
def scenarioFS : FilterState := ⟨true, ["Medium"], 100, 1⟩

/-- A row carrying the first water-overlapping identifier. -/
def waterRecord : BlockGroupRecord :=
  { baseRecord with census_block_group := "060750179021" }

/-- A row whose geometry raises when parsed or indexed. -/
def badRecord : BlockGroupRecord :=
  { baseRecord with
    census_block_group := "060750000031"
    geometry := Geometry.malformed }

/-- A row with a multi-polygon geometry of two sub-polygons. -/
def multiRecord : BlockGroupRecord :=
  { baseRecord with
    census_block_group := "060750000021"
    geometry := Geometry.multiPolygon
      [[[(-122, 37), (-122, 38), (-121, 38), (-122, 37)]],
       [[(0, 0), (0, 2), (2, 2), (0, 0)]]] }

/-- A concrete gym row. -/
def gymW : GymLocation := ⟨"p1", "Gym One", "fitness", -122, 37⟩

/-- A concrete filter state with exclusion on. -/
def waterFS : FilterState := ⟨true, ["Medium"], 0, 10⟩

/-- A lax filter state for the monotonicity scenario. -/
def fs1W : FilterState := ⟨false, ["Medium", "High"], 0, 2⟩

/-- A filter state at least as restrictive as `fs1W` in every component. -/
def fs2W : FilterState := ⟨true, ["High"], 100, 1⟩

/-- The colour scale `create_choropleth_map` builds for the opportunity
metric over the singleton column `[50]`. -/
def scW : ColorScale :=
  ⟨["red", "orange", "yellow", "lightgreen", "green"], 50, 50,
    "Opportunity Score (Green = High Opportunity)"⟩

/-- The artifact for `[multiRecord]` under the distance metric, no gyms. -/
def multiArt : MapArtifact :=
  ⟨[⟨[(37, -122), (38, -122), (38, -121), (37, -122)], 1/2,
      "060750000021", "Medium"⟩],
   [],
   ⟨["green", "yellow", "orange", "red"], 0, 1/2,
     "Distance to Nearest Gym (Red = Farther)"⟩⟩

/-- The artifact for `[baseRecord]` under the distance metric with gyms. -/
def a1W : MapArtifact :=
  ⟨[⟨[(0, 0), (1, 0), (1, 1), (0, 0)], 1/2, "060750000001", "Medium"⟩],
   [⟨(37, -122), "Gym One", "fitness"⟩],
   ⟨["green", "yellow", "orange", "red"], 0, 1/2,
     "Distance to Nearest Gym (Red = Farther)"⟩⟩

/-- The artifact for `[recordB]` under the half-mile-count metric with
gyms. -/
def a2W : MapArtifact :=
  ⟨[⟨[(1, 1), (2, 1), (2, 2), (1, 1)], ((1 : ℕ) : ℚ), "060750000002", "High"⟩],
   [⟨(37, -122), "Gym One", "fitness"⟩],
   ⟨["red", "orange", "yellow", "green"], 0, ((1 : ℕ) : ℚ),
     "Gyms within 0.5 miles (Green = More Gyms)"⟩⟩

theorem foldl_min_le_init (l : List ℚ) (a : ℚ) : l.foldl min a ≤ a := by
  induction l generalizing a with
  | nil => simp
  | cons x t ih => exact le_trans (ih (min a x)) (min_le_left _ _)

theorem foldl_min_le_mem {l : List ℚ} {x : ℚ} (hx : x ∈ l) (a : ℚ) :
    l.foldl min a ≤ x := by
  induction l generalizing a with
  | nil => cases hx
  | cons y t ih =>
    rcases List.mem_cons.1 hx with rfl | h
    · exact le_trans (foldl_min_le_init t (min a x)) (min_le_right _ _)
    · exact ih h _

theorem listMin_le {xs : List ℚ} {x : ℚ} (hx : x ∈ xs) : listMin xs ≤ x := by
  cases xs with
  | nil => cases hx
  | cons y t =>
    rcases List.mem_cons.1 hx with rfl | h
    · exact foldl_min_le_init t x
    · exact foldl_min_le_mem h y

theorem init_le_foldl_max (l : List ℚ) (a : ℚ) : a ≤ l.foldl max a := by
  induction l generalizing a with
  | nil => simp
  | cons x t ih => exact le_trans (le_max_left _ _) (ih (max a x))

theorem mem_le_foldl_max {l : List ℚ} {x : ℚ} (hx : x ∈ l) (a : ℚ) :
    x ≤ l.foldl max a := by
  induction l generalizing a with
  | nil => cases hx
  | cons y t ih =>
    rcases List.mem_cons.1 hx with rfl | h
    · exact le_trans (le_max_right _ _) (init_le_foldl_max t (max a x))
    · exact ih h _

theorem le_listMax {xs : List ℚ} {x : ℚ} (hx : x ∈ xs) : x ≤ listMax xs := by
  cases xs with
  | nil => cases hx
  | cons y t =>
    rcases List.mem_cons.1 hx with rfl | h
    · exact init_le_foldl_max t x
    · exact mem_le_foldl_max h y

theorem sequenceRows_map {α β : Type} {f : α → Option β} {g : α → β}
    (hf : ∀ a, f a = some (g a)) : ∀ l : List α, sequenceRows f l = some (l.map g)
  | [] => rfl
  | a :: l => by
    simp [sequenceRows, hf a, sequenceRows_map hf l]

theorem sequenceRows_isSome {α β : Type} {f : α → Option β} :
    ∀ {l : List α}, (∀ a ∈ l, (f a).isSome) → ∃ ys, sequenceRows f l = some ys := by
  intro l
  induction l with
  | nil => exact fun _ => ⟨[], rfl⟩
  | cons a t ih =>
    intro h
    obtain ⟨b, hb⟩ := Option.isSome_iff_exists.1 (h a (List.mem_cons_self a t))
    obtain ⟨bs, hbs⟩ := ih (fun x hx => h x (List.mem_cons_of_mem a hx))
    exact ⟨b :: bs, by simp [sequenceRows, hb, hbs]⟩

theorem sequenceRows_length {α β : Type} {f : α → Option β} :
    ∀ {l : List α} {ys : List β}, sequenceRows f l = some ys → ys.length = l.length := by
  intro l
  induction l with
  | nil => intro ys h; simp [sequenceRows] at h; simp [← h]
  | cons a t ih =>
    intro ys h
    rw [sequenceRows] at h
    cases ha : f a with
    | none => rw [ha] at h; simp at h
    | some b =>
      rw [ha] at h
      cases ht : sequenceRows f t with
      | none => rw [ht] at h; simp at h
      | some bs =>
        rw [ht] at h
        simp only [Option.some.injEq] at h
        subst h
        simp [ih ht]

theorem sequenceRows_get {α β : Type} {f : α → Option β} :
    ∀ {l : List α} {ys : List β}, sequenceRows f l = some ys →
      ∀ i (hi : i < l.length) (hj : i < ys.length),
        f (l.get ⟨i, hi⟩) = some (ys.get ⟨i, hj⟩) := by
  intro l
  induction l with
  | nil => intro ys _ i hi; cases hi
  | cons a t ih =>
    intro ys h i hi hj
    rw [sequenceRows] at h
    cases ha : f a with
    | none => rw [ha] at h; simp at h
    | some b =>
      rw [ha] at h
      cases ht : sequenceRows f t with
      | none => rw [ht] at h; simp at h
      | some bs =>
        rw [ht] at h
        simp only [Option.some.injEq] at h
        subst h
        cases i with
        | zero => simpa using ha
        | succ k =>
          exact ih ht k (Nat.lt_of_succ_lt_succ hi) (Nat.lt_of_succ_lt_succ hj)

theorem getD_mem {s : List ℚ} {i : Nat} (hi : i < s.length) (d : ℚ) :
    s.getD i d ∈ s := by
  rw [List.getD_eq_getElem s d hi]
  exact List.getElem_mem hi

theorem getD_sorted_le {s : List ℚ} (hs : s.Sorted (· ≤ ·)) {i j : Nat}
    (hij : i ≤ j) (hj : j < s.length) (d : ℚ) : s.getD i d ≤ s.getD j d := by
  have hi : i < s.length := lt_of_le_of_lt hij hj
  rw [List.getD_eq_getElem s d hi, List.getD_eq_getElem s d hj]
  have h := hs.rel_get_of_le (a := ⟨i, hi⟩) (b := ⟨j, hj⟩) (Fin.mk_le_mk.mpr hij)
  simpa [List.get_eq_getElem] using h

theorem interpolate_bounds {s : List ℚ} {h : ℚ} (hs : s.Sorted (· ≤ ·))
    (hh0 : 0 ≤ h) (hh1 : h ≤ (s.length : ℚ) - 1) :
    ∃ a ∈ s, ∃ b ∈ s, a ≤ interpolate s h ∧ interpolate s h ≤ b := by
  unfold interpolate
  set lo := (Int.floor h).toNat with hlodef
  set hi := (Int.ceil h).toNat with hhidef
  have hloZ : (lo : ℤ) = Int.floor h := Int.toNat_of_nonneg (Int.floor_nonneg.2 hh0)
  have hhiZ : (hi : ℤ) = Int.ceil h := Int.toNat_of_nonneg (Int.ceil_nonneg hh0)
  have hloQ : (lo : ℚ) = ((Int.floor h : ℤ) : ℚ) := by exact_mod_cast hloZ
  have hhiQ : (hi : ℚ) = ((Int.ceil h : ℤ) : ℚ) := by exact_mod_cast hhiZ
  have hlo_le : (lo : ℚ) ≤ h := by rw [hloQ]; exact Int.floor_le h
  have hle_hi : h ≤ (hi : ℚ) := by rw [hhiQ]; exact Int.le_ceil h
  have hlohi : lo ≤ hi := by
    have hfc := Int.floor_le_ceil h
    have : (lo : ℤ) ≤ (hi : ℤ) := by rw [hloZ, hhiZ]; exact hfc
    exact_mod_cast this
  have hhi_lt : hi < s.length := by
    have h2 : ((s.length : ℚ) - 1) = (((s.length : ℤ) - 1 : ℤ) : ℚ) := by push_cast; ring
    have h3 : Int.ceil h ≤ (s.length : ℤ) - 1 := by
      have := Int.ceil_mono hh1
      rwa [h2, Int.ceil_intCast] at this
    have h4 : (hi : ℤ) < (s.length : ℤ) := by rw [hhiZ]; omega
    exact_mod_cast h4
  have hlo_lt : lo < s.length := lt_of_le_of_lt hlohi hhi_lt
  have hAB : s.getD lo 0 ≤ s.getD hi 0 := getD_sorted_le hs hlohi hhi_lt 0
  have hfr : h - ((Int.floor h : ℤ) : ℚ) < 1 := by
    have hf := Int.fract_lt_one h
    rw [Int.fract] at hf
    exact hf
  have ht1 : h - (lo : ℚ) ≤ 1 := by rw [hloQ]; linarith
  have ht0 : 0 ≤ h - (lo : ℚ) := by linarith
  refine ⟨s.getD lo 0, getD_mem hlo_lt 0, s.getD hi 0, getD_mem hhi_lt 0, ?_, ?_⟩
  · have hm : 0 ≤ (h - (lo : ℚ)) * (s.getD hi 0 - s.getD lo 0) :=
      mul_nonneg ht0 (by linarith)
    linarith
  · have hm : (h - (lo : ℚ)) * (s.getD hi 0 - s.getD lo 0) ≤
        s.getD hi 0 - s.getD lo 0 :=
      mul_le_of_le_one_left (by linarith) ht1
    linarith

theorem quantile_bounds {xs : List ℚ} (hne : xs ≠ []) {p : ℚ}
    (hp0 : 0 ≤ p) (hp1 : p ≤ 1) :
    listMin xs ≤ quantile xs p ∧ quantile xs p ≤ listMax xs := by
  have hperm := List.perm_insertionSort (· ≤ · : ℚ → ℚ → Prop) xs
  have hs := List.sorted_insertionSort (· ≤ · : ℚ → ℚ → Prop) xs
  have hlen : (xs.insertionSort (· ≤ ·)).length = xs.length := hperm.length_eq
  have hpos : 0 < xs.length := List.length_pos.2 hne
  have hone : (1 : ℚ) ≤ (xs.length : ℚ) := by exact_mod_cast hpos
  have hh0 : 0 ≤ p * ((xs.length : ℚ) - 1) := mul_nonneg hp0 (by linarith)
  have hh1 : p * ((xs.length : ℚ) - 1) ≤
      ((xs.insertionSort (· ≤ ·)).length : ℚ) - 1 := by
    rw [hlen]
    calc p * ((xs.length : ℚ) - 1) ≤ 1 * ((xs.length : ℚ) - 1) :=
          mul_le_mul_of_nonneg_right hp1 (by linarith)
      _ = (xs.length : ℚ) - 1 := one_mul _
  obtain ⟨a, ha, b, hb, h1, h2⟩ := interpolate_bounds hs hh0 hh1
  unfold quantile
  exact ⟨le_trans (listMin_le (hperm.mem_iff.1 ha)) h1,
    le_trans h2 (le_listMax (hperm.mem_iff.1 hb))⟩

theorem filter_conditions_iff (fs : FilterState) (r : BlockGroupRecord) :
    filter_conditions fs r = true ↔ specKeep fs r := by
  unfold filter_conditions specKeep
  cases h : fs.exclude_water_blocks <;>
    simp [List.elem_iff, and_assoc]

/-- C1: the filter keeps exactly the records whose tier is selected, whose
population meets the minimum, whose nearest-gym distance is within the
maximum and, under exclusion, whose identifier avoids the water-overlap
list; it is the stable `List.filter` of that predicate, hence preserves
input order (and, being a pure function of the input, mutates nothing). -/
theorem C1_filter_exact (fs : FilterState) (df : List BlockGroupRecord) :
    apply_filters fs df = df.filter (fun r => decide (specKeep fs r)) ∧
    (apply_filters fs df).Sublist df := by
  constructor
  · unfold apply_filters
    apply List.filter_congr
    intro r _
    by_cases h : specKeep fs r
    · simp [h, (filter_conditions_iff fs r).2 h]
    · cases hfc : filter_conditions fs r
      · simp [h]
      · exact absurd ((filter_conditions_iff fs r).1 hfc) h
  · exact List.filter_sublist df

/-- C2 (counterexample): on the spec's scenario input the filter also keeps
the second record — population 1500 meets the minimum 100 and distance 0.8
is within 1.0 — so the result is not exactly the first record. -/
theorem C2_counterexample :
    apply_filters scenarioFS [scenarioA, scenarioB, scenarioC] ≠ [scenarioA] := by
  have h : apply_filters scenarioFS [scenarioA, scenarioB, scenarioC] =
      [scenarioA, scenarioB] := by
    norm_num [apply_filters, filter_conditions, scenarioFS, scenarioA, scenarioB,
      scenarioC, baseRecord, WATER_OVERLAPPING_BLOCKS, List.filter]
    simp
  rw [h]
  simp

/-- C2 (amended): on the scenario input the filter returns exactly the first
two records; only the third (population 0, distance 2.0 miles) is dropped. -/
theorem C2_scenario :
    apply_filters scenarioFS [scenarioA, scenarioB, scenarioC] =
      [scenarioA, scenarioB] := by
  norm_num [apply_filters, filter_conditions, scenarioFS, scenarioA, scenarioB,
    scenarioC, baseRecord, WATER_OVERLAPPING_BLOCKS, List.filter]
  simp

/-- C5: with exclusion enabled, no record of the filtered output carries
either of the two fixed water-overlap identifiers, whatever the other
filter settings and the input are. -/
theorem C5_exclusion (fs : FilterState) (df : List BlockGroupRecord)
    (hex : fs.exclude_water_blocks = true) :
    ∀ r ∈ apply_filters fs df,
      r.census_block_group ≠ "060750179021" ∧
      r.census_block_group ≠ "060750601001" := by
  intro r hr
  have hmem := List.mem_filter.1 hr
  have hk := (filter_conditions_iff fs r).1 hmem.2
  have hni := hk.2.2.2 hex
  simp [WATER_OVERLAPPING_BLOCKS] at hni
  exact hni

/-- C5 witness: the theorem applied to a concrete state and dataset. -/
theorem C5_witness :
    waterFS.exclude_water_blocks = true ∧
    ∀ r ∈ apply_filters waterFS [waterRecord, baseRecord],
      r.census_block_group ≠ "060750179021" ∧
      r.census_block_group ≠ "060750601001" :=
  ⟨rfl, C5_exclusion waterFS [waterRecord, baseRecord] rfl⟩

/-- C6: every filtered record comes from the full sequence, and a filter at
least as restrictive in every component (tier set no wider, minimum
population no lower, maximum distance no higher, exclusion implied) never
yields more records. -/
theorem C6_subset_mono (fs1 fs2 : FilterState) (df : List BlockGroupRecord)
    (htier : ∀ t ∈ fs2.opportunity_tiers, t ∈ fs1.opportunity_tiers)
    (hpop : fs1.min_population ≤ fs2.min_population)
    (hdist : fs2.max_distance ≤ fs1.max_distance)
    (hex : fs1.exclude_water_blocks = true → fs2.exclude_water_blocks = true) :
    (∀ r ∈ apply_filters fs1 df, r ∈ df) ∧
    (apply_filters fs2 df).length ≤ (apply_filters fs1 df).length := by
  constructor
  · exact fun r hr => (List.mem_filter.1 hr).1
  · apply List.Sublist.length_le
    apply List.monotone_filter_right
    intro r h2
    have hk2 := (filter_conditions_iff fs2 r).1 h2
    exact (filter_conditions_iff fs1 r).2
      ⟨htier _ hk2.1, le_trans hpop hk2.2.1, le_trans hk2.2.2.1 hdist,
        fun h1 => hk2.2.2.2 (hex h1)⟩

/-- C6 witness: the theorem applied to two concrete filter states. -/
theorem C6_witness :
    (∀ t ∈ fs2W.opportunity_tiers, t ∈ fs1W.opportunity_tiers) ∧
    fs1W.min_population ≤ fs2W.min_population ∧
    fs2W.max_distance ≤ fs1W.max_distance ∧
    (fs1W.exclude_water_blocks = true → fs2W.exclude_water_blocks = true) ∧
    (∀ r ∈ apply_filters fs1W [baseRecord, recordB], r ∈ [baseRecord, recordB]) ∧
    (apply_filters fs2W [baseRecord, recordB]).length ≤
      (apply_filters fs1W [baseRecord, recordB]).length :=
  ⟨by decide, by decide, by norm_num [fs1W, fs2W], by decide,
    (C6_subset_mono fs1W fs2W [baseRecord, recordB] (by decide) (by decide)
      (by norm_num [fs1W, fs2W]) (by decide)).1,
    (C6_subset_mono fs1W fs2W [baseRecord, recordB] (by decide) (by decide)
      (by norm_num [fs1W, fs2W]) (by decide)).2⟩

/-- C9: the top-10 view has `min 10 n` rows, all drawn from the filtered
sequence; no record left out of the view scores strictly higher than any
record in it; and for any two records appearing in order with the later one
scoring no higher, the sort underlying the view keeps that order — ties go
to the earlier original row. -/
theorem C9_top10 (df : List BlockGroupRecord) (hne : df ≠ []) :
    (top_10 df).length = min 10 df.length ∧
    (∀ x ∈ top_10 df, x ∈ df) ∧
    (∀ y ∈ df, y ∉ top_10 df → ∀ x ∈ top_10 df,
      y.opportunity_score ≤ x.opportunity_score) ∧
    (∀ a b : BlockGroupRecord, [a, b].Sublist df → scoreGE a b →
      [a, b].Sublist (df.insertionSort scoreGE)) := by
  have hsorted : (df.insertionSort scoreGE).Sorted scoreGE :=
    List.sorted_insertionSort scoreGE df
  have hperm : List.Perm (df.insertionSort scoreGE) df :=
    List.perm_insertionSort scoreGE df
  refine ⟨?_, ?_, ?_, ?_⟩
  · unfold top_10
    rw [List.length_take, List.length_insertionSort]
  · intro x hx
    have hsub : (top_10 df).Sublist (df.insertionSort scoreGE) :=
      List.take_sublist _ _
    exact hperm.mem_iff.1 (hsub.subset hx)
  · intro y hy hyn x hx
    have hysort : y ∈ df.insertionSort scoreGE := hperm.mem_iff.2 hy
    have hsplit : df.insertionSort scoreGE =
        top_10 df ++ (df.insertionSort scoreGE).drop 10 := by
      unfold top_10
      rw [List.take_append_drop]
    have hpw : (top_10 df ++ (df.insertionSort scoreGE).drop 10).Pairwise scoreGE := by
      rw [← hsplit]; exact hsorted
    have hcross := (List.pairwise_append.1 hpw).2.2
    have hydrop : y ∈ (df.insertionSort scoreGE).drop 10 := by
      rw [hsplit] at hysort
      rcases List.mem_append.1 hysort with h | h
      · exact absurd h hyn
      · exact h
    exact hcross x hx y hydrop
  · intro a b hab hba
    exact List.pair_sublist_insertionSort hba hab

/-- C9 witness: the theorem applied to a concrete two-row sequence. -/
theorem C9_witness :
    ([recordB, baseRecord] ≠ []) ∧
    (top_10 [recordB, baseRecord]).length = min 10 [recordB, baseRecord].length ∧
    (∀ x ∈ top_10 [recordB, baseRecord], x ∈ [recordB, baseRecord]) :=
  ⟨by simp,
    (C9_top10 [recordB, baseRecord] (by simp)).1,
    (C9_top10 [recordB, baseRecord] (by simp)).2.1⟩

theorem renderRecord_isSome {metric : String} {r : BlockGroupRecord}
    (hg : (outerRing r.geometry).isSome) (hm : (getMetric r metric).isSome) :
    (renderRecord metric r).isSome := by
  obtain ⟨ring, hring⟩ := Option.isSome_iff_exists.1 hg
  obtain ⟨v, hv⟩ := Option.isSome_iff_exists.1 hm
  simp [renderRecord, hring, hv]

theorem renderRecord_locations {metric : String} {r : BlockGroupRecord} {s : Shape}
    {ring : List (ℚ × ℚ)} (h : renderRecord metric r = some s)
    (hg : outerRing r.geometry = some ring) :
    s.locations = ring.map (fun p => (p.2, p.1)) := by
  unfold renderRecord at h
  rw [hg] at h
  cases hv : getMetric r metric with
  | none => rw [hv] at h; simp at h
  | some v =>
    rw [hv] at h
    simp at h
    rw [← h]

theorem create_inv {gyms : List GymLocation} {df : List BlockGroupRecord}
    {metric : String} {sg : Bool} {art : MapArtifact}
    (h : create_choropleth_map gyms df metric sg = some art) :
    ∃ scale, selectColorScale df metric = some scale ∧
    ∃ shapes, sequenceRows (renderRecord metric) df = some shapes ∧
      art = ⟨shapes, if sg then gyms.map mkGymMarker else [], scale⟩ := by
  unfold create_choropleth_map at h
  cases hsc : selectColorScale df metric with
  | none => rw [hsc] at h; simp at h
  | some scale =>
    rw [hsc] at h
    cases hsh : sequenceRows (renderRecord metric) df with
    | none => rw [hsh] at h; simp at h
    | some shapes =>
      rw [hsh] at h
      simp at h
      exact ⟨scale, rfl, shapes, rfl, h.symm⟩

/-- C3 (counterexample): a metric key that is not a column of the data makes
the render fail on a non-empty input — the `df[metric]` lookup raises before
the dictionary fallback is ever consulted — so the renderer does not fall
back for every unrecognized key. -/
theorem C3_counterexample :
    create_choropleth_map [] [baseRecord] "bogus" true = none := rfl

/-- C3 (amended): for a metric key outside the three recognized ones the
render falls back to the opportunity-score ramp and caption and returns an
artifact, provided the key is still a numeric column of the data (and every
geometry is renderable); for a key that is no column at all the column
lookup raises and the render fails instead. -/
theorem C3_fallback (gyms : List GymLocation) (df : List BlockGroupRecord)
    (metric : String) (sg : Bool) (hne : df ≠ [])
    (hcol : ∀ r ∈ df, (getMetric r metric).isSome)
    (hgeom : ∀ r ∈ df, (outerRing r.geometry).isSome)
    (h1 : metric ≠ "opportunity_score")
    (h2 : metric ≠ "gyms_within_half_mile")
    (h3 : metric ≠ "distance_to_nearest_gym_miles") :
    ∃ art, create_choropleth_map gyms df metric sg = some art ∧
      art.scale.ramp = ["red", "orange", "yellow", "lightgreen", "green"] ∧
      art.scale.caption = "Opportunity Score (Green = High Opportunity)" := by
  obtain ⟨vals, hvals⟩ := sequenceRows_isSome (f := fun r => getMetric r metric) hcol
  obtain ⟨shapes, hshapes⟩ := sequenceRows_isSome (f := renderRecord metric)
    (fun r hr => renderRecord_isSome (hgeom r hr) (hcol r hr))
  refine ⟨⟨shapes, if sg then gyms.map mkGymMarker else [],
    ⟨["red", "orange", "yellow", "lightgreen", "green"], listMin vals, listMax vals,
      "Opportunity Score (Green = High Opportunity)"⟩⟩, ?_, rfl, rfl⟩
  simp [create_choropleth_map, selectColorScale, hvals, hshapes, h1, h2, h3]

/-- C3 witness: a key that is a column but not a recognized metric. -/
theorem C3_witness :
    (([baseRecord] : List BlockGroupRecord) ≠ [] ∧
      ("total_population" : String) ≠ "opportunity_score" ∧
      ("total_population" : String) ≠ "gyms_within_half_mile" ∧
      ("total_population" : String) ≠ "distance_to_nearest_gym_miles") ∧
    ∃ art, create_choropleth_map [] [baseRecord] "total_population" false = some art ∧
      art.scale.ramp = ["red", "orange", "yellow", "lightgreen", "green"] ∧
      art.scale.caption = "Opportunity Score (Green = High Opportunity)" :=
  ⟨⟨by simp, by simp, by simp, by simp⟩,
    C3_fallback [] [baseRecord] "total_population" false (by simp)
      (by intro r hr; simp at hr; subst hr; rfl)
      (by intro r hr; simp at hr; subst hr; rfl)
      (by simp) (by simp) (by simp)⟩

/-- C4: a successful render draws exactly one filled shape per record, and
each shape's locations are the outer (first) ring — for a multi-polygon the
first sub-polygon's first ring — with every coordinate pair swapped from
longitude-first to latitude-first. -/
theorem C4_one_shape_per_record (gyms : List GymLocation)
    (df : List BlockGroupRecord) (metric : String) (sg : Bool)
    (art : MapArtifact) (h : create_choropleth_map gyms df metric sg = some art) :
    art.shapes.length = df.length ∧
    ∀ i (hi : i < df.length) (hsi : i < art.shapes.length),
      (∀ ring rest, (df.get ⟨i, hi⟩).geometry = Geometry.polygon (ring :: rest) →
        (art.shapes.get ⟨i, hsi⟩).locations = ring.map (fun p => (p.2, p.1))) ∧
      (∀ ring rrest rest, (df.get ⟨i, hi⟩).geometry =
          Geometry.multiPolygon ((ring :: rrest) :: rest) →
        (art.shapes.get ⟨i, hsi⟩).locations = ring.map (fun p => (p.2, p.1))) := by
  obtain ⟨scale, hsc, shapes, hsh, hart⟩ := create_inv h
  subst hart
  refine ⟨sequenceRows_length hsh, ?_⟩
  intro i hi hsi
  have hrr := sequenceRows_get hsh i hi hsi
  constructor
  · intro ring rest hg
    exact renderRecord_locations hrr (by rw [hg]; rfl)
  · intro ring rrest rest hg
    exact renderRecord_locations hrr (by rw [hg]; rfl)

/-- C4 witness: a multi-polygon with two sub-polygons renders as exactly one
shape, the swapped first ring of the first sub-polygon. -/
theorem C4_witness :
    create_choropleth_map [] [multiRecord] "distance_to_nearest_gym_miles" false =
      some multiArt ∧
    multiArt.shapes.length = [multiRecord].length :=
  ⟨rfl,
    (C4_one_shape_per_record [] [multiRecord] "distance_to_nearest_gym_miles"
      false multiArt rfl).1⟩

/-- C7: the render loop has no per-record isolation — a single malformed
geometry aborts the whole render and yields no artifact at all, although
the remaining record renders fine on its own. -/
theorem C7_no_isolation :
    create_choropleth_map [] [badRecord, baseRecord] "opportunity_score" false =
      none ∧
    create_choropleth_map [] [baseRecord] "opportunity_score" false ≠ none := by
  constructor
  · rfl
  · have hs : (create_choropleth_map [] [baseRecord]
        "opportunity_score" false).isSome = true := rfl
    intro h
    rw [h] at hs
    simp at hs

/-- C8: for the opportunity-score metric the colour-scale bounds are the 5th
and 95th percentiles of the input records' scores, and both bounds lie
within the observed minimum and maximum of those scores. -/
theorem C8_percentile_bounds (df : List BlockGroupRecord) (hne : df ≠ [])
    (sc : ColorScale) (h : selectColorScale df "opportunity_score" = some sc) :
    sc.vmin = quantile (df.map (fun r => r.opportunity_score)) (1/20) ∧
    sc.vmax = quantile (df.map (fun r => r.opportunity_score)) (19/20) ∧
    listMin (df.map (fun r => r.opportunity_score)) ≤ sc.vmin ∧
    sc.vmin ≤ listMax (df.map (fun r => r.opportunity_score)) ∧
    listMin (df.map (fun r => r.opportunity_score)) ≤ sc.vmax ∧
    sc.vmax ≤ listMax (df.map (fun r => r.opportunity_score)) := by
  have hv : sequenceRows (fun r => getMetric r "opportunity_score") df =
      some (df.map (fun r => r.opportunity_score)) :=
    sequenceRows_map (fun r => rfl) df
  unfold selectColorScale at h
  rw [hv] at h
  simp at h
  have hmn : df.map (fun r => r.opportunity_score) ≠ [] := by simpa using hne
  have h05 := quantile_bounds hmn (p := (20 : ℚ)⁻¹) (by norm_num) (by norm_num)
  have h95 := quantile_bounds hmn (p := 19/20) (by norm_num) (by norm_num)
  subst h
  exact ⟨by norm_num, by norm_num, h05.1, h05.2, h95.1, h95.2⟩

/-- C8 witness: the theorem at a one-row input, whose scale is `scW`. -/
theorem C8_witness :
    ([baseRecord] ≠ []) ∧
    selectColorScale [baseRecord] "opportunity_score" = some scW ∧
    listMin ([baseRecord].map (fun r => r.opportunity_score)) ≤ scW.vmin ∧
    scW.vmax ≤ listMax ([baseRecord].map (fun r => r.opportunity_score)) :=
  ⟨by simp, by norm_num [selectColorScale, sequenceRows, getMetric, quantile,
      interpolate, List.insertionSort, List.orderedInsert, baseRecord, scW] <;> simp,
    (C8_percentile_bounds [baseRecord] (by simp) scW
      (by norm_num [selectColorScale, sequenceRows, getMetric, quantile,
        interpolate, List.insertionSort, List.orderedInsert, baseRecord,
        scW] <;> simp)).2.2.1,
    (C8_percentile_bounds [baseRecord] (by simp) scW
      (by norm_num [selectColorScale, sequenceRows, getMetric, quantile,
        interpolate, List.insertionSort, List.orderedInsert, baseRecord,
        scW] <;> simp)).2.2.2.2.2⟩

/-- C10: with the gym overlay on, the markers are exactly the full cached
gym dataset mapped to markers — identical for any two successful renders,
whatever their record sequences, filter states and metrics. -/
theorem C10_markers (gyms : List GymLocation) (df1 df2 : List BlockGroupRecord)
    (m1 m2 : String) (a1 a2 : MapArtifact)
    (h1 : create_choropleth_map gyms df1 m1 true = some a1)
    (h2 : create_choropleth_map gyms df2 m2 true = some a2) :
    a1.markers = gyms.map mkGymMarker ∧ a2.markers = a1.markers := by
  obtain ⟨sc1, -, sh1, -, hA⟩ := create_inv h1
  obtain ⟨sc2, -, sh2, -, hB⟩ := create_inv h2
  subst hA
  subst hB
  simp

/-- C10 witness: two different record sequences and metrics, same markers. -/
theorem C10_witness :
    create_choropleth_map [gymW] [baseRecord] "distance_to_nearest_gym_miles"
      true = some a1W ∧
    create_choropleth_map [gymW] [recordB] "gyms_within_half_mile" true =
      some a2W ∧
    a1W.markers = [gymW].map mkGymMarker ∧ a2W.markers = a1W.markers :=
  ⟨rfl, rfl,
    (C10_markers [gymW] [baseRecord] [recordB] "distance_to_nearest_gym_miles"
      "gyms_within_half_mile" a1W a2W rfl rfl).1,
    (C10_markers [gymW] [baseRecord] [recordB] "distance_to_nearest_gym_miles"
      "gyms_within_half_mile" a1W a2W rfl rfl).2⟩
